import Mathlib

/-!
# Verification of the Ai_Travel_Agent orchestrator and tools

Shallow embedding of the repository source:
  - `src/agents/agent.py` (orchestrator: `exists_action`, `invoke_tools`,
    `call_tools_llm`, `email_sender`, `invoke_llama`),
  - `src/agents/tools/flights_finder.py`,
  - `src/agents/tools/hotels_finder.py`,
  - `src/agents/tools/attractions_finder.py`.

JSON values are modelled by `JValue` (numbers as integers; no claim depends
on fractional values). Python exceptions that the code can raise or catch
are modelled by `PyExn`, and fallible code returns `Except PyExn _`.
Each HTTP call's outcome is an oracle argument: a transport-level failure
(`requests.exceptions.RequestException`, which since requests 2.27 also
subsumes JSON-decode failure of `response.json()`) or the parsed JSON body.
-/

/-- A JSON value as produced by `response.json()`. Numeric literals are
modelled as integers; no code path in the repository computes with number
values beyond passing them through. -/
inductive JValue where
  | null : JValue
  | bool : Bool → JValue
  | num : Int → JValue
  | str : String → JValue
  | arr : List JValue → JValue
  | obj : List (String × JValue) → JValue

/-- Python exceptions raised by the embedded code.  `keyError` carries the
missing key, `validationError` stands for pydantic message validation. -/
inductive PyExn where
  | keyError : String → PyExn
  | indexError : PyExn
  | typeError : PyExn
  | attributeError : PyExn
  | validationError : PyExn
deriving DecidableEq

/-- Key lookup in a JSON object: the value of the first field named `k`,
or `none` when the key is absent or the receiver is not an object. -/
def jFind : JValue → String → Option JValue
  | .obj fs, k => (fs.find? (fun p => p.1 == k)).map (fun p => p.2)
  | _, _ => none

/-- Whether a JSON object carries key `k` (Python `k in d` for a dict). -/
def jHasKey (v : JValue) (k : String) : Bool :=
  (jFind v k).isSome

/-- The keys of a JSON object, in field order. -/
def jKeys : JValue → List String
  | .obj fs => fs.map (fun p => p.1)
  | _ => []

/-- Total lookup with default, used by claim-side (spec) definitions. -/
def jGetD (v : JValue) (k : String) (d : JValue) : JValue :=
  (jFind v k).getD d

/-- Python `receiver.get(k, default)`: defined on dicts, raises
`AttributeError` when the receiver is not a dict (e.g. `None.get`). -/
def pyDictGet (v : JValue) (k : String) (d : JValue) : Except PyExn JValue :=
  match v with
  | .obj fs => .ok (((fs.find? (fun p => p.1 == k)).map (fun p => p.2)).getD d)
  | _ => .error .attributeError

/-- Python subscription `receiver[key]`: dict lookup raising `KeyError`,
list indexing (with negative indices) raising `IndexError`; any other
receiver/key combination raises `TypeError`. -/
def pyGetItem (v : JValue) (key : JValue) : Except PyExn JValue :=
  match v, key with
  | .obj fs, .str k =>
    match (fs.find? (fun p => p.1 == k)).map (fun p => p.2) with
    | some x => .ok x
    | none => .error (.keyError k)
  | .arr xs, .num i =>
    let j : Int := if i < 0 then (xs.length : Int) + i else i
    if h : 0 ≤ j ∧ j.toNat < xs.length then .ok (xs.get ⟨j.toNat, h.2⟩)
    else .error .indexError
  | _, _ => .error .typeError

/-- Python list indexing on a Lean list of strings (for
`location.split(',')[i]`). -/
def pyListIdx (xs : List String) (i : Nat) : Except PyExn String :=
  match xs.get? i with
  | some s => .ok s
  | none => .error .indexError

/-- Split a character list at every occurrence of `sep`; always returns at
least one (possibly empty) piece, like Python `str.split(sep)`. -/
def splitCharList (sep : Char) : List Char → List (List Char)
  | [] => [[]]
  | c :: cs =>
    let r := splitCharList sep cs
    if c = sep then [] :: r
    else
      match r with
      | h :: t => (c :: h) :: t
      | [] => [[c]]

/-- Python `s.split(sep)` for a one-character separator. -/
def pySplit (s : String) (sep : Char) : List String :=
  (splitCharList sep s.data).map (fun l => String.mk l)

/-- Python truthiness of a JSON value (`if not x`). -/
def pyTruthy : JValue → Bool
  | .null => false
  | .bool b => b
  | .num n => n != 0
  | .str s => s != ""
  | .arr xs => !xs.isEmpty
  | .obj fs => !fs.isEmpty

/-- Python `==` against a string literal (the only equality the embedded
code performs on JSON values): true exactly for the equal string. -/
def pyEqStr (v : JValue) (s : String) : Bool :=
  match v with
  | .str t => t == s
  | _ => false

/-- Python `len`: defined on lists, dicts and strings, `TypeError`
otherwise. -/
def pyLen : JValue → Except PyExn Nat
  | .arr xs => .ok xs.length
  | .obj fs => .ok fs.length
  | .str s => .ok s.length
  | _ => .error .typeError

/-- Infix-list test used for Python `sub in s` on strings. -/
def listInfixB (needle hay : List Char) : Bool :=
  match hay with
  | [] => needle.isEmpty
  | _ :: t => needle.isPrefixOf hay || listInfixB needle t

/-- Python membership `k in v` for a string key: key test on dicts,
element equality on lists, substring test on strings, `TypeError`
otherwise. -/
def pyContains (v : JValue) (k : String) : Except PyExn Bool :=
  match v with
  | .obj _ => .ok (jHasKey v k)
  | .arr xs => .ok (xs.any (fun x => pyEqStr x k))
  | .str s => .ok (listInfixB k.data s.data)
  | _ => .error .typeError

mutual

/-- Python `repr` of a JSON value (strings quoted), used inside `str` of
containers. -/
def pyRepr : JValue → String
  | .null => "None"
  | .bool b => if b then "True" else "False"
  | .num n => toString n
  | .str s => "\x27" ++ s ++ "\x27"
  | .arr xs => "[" ++ pyReprList xs ++ "]"
  | .obj fs => "\x7b" ++ pyReprFields fs ++ "\x7d"

/-- Comma-separated `repr`s of list elements. -/
def pyReprList : List JValue → String
  | [] => ""
  | [x] => pyRepr x
  | x :: xs => pyRepr x ++ ", " ++ pyReprList xs

/-- Comma-separated `repr`s of dict fields. -/
def pyReprFields : List (String × JValue) → String
  | [] => ""
  | [p] => "\x27" ++ p.1 ++ "\x27: " ++ pyRepr p.2
  | p :: ps => "\x27" ++ p.1 ++ "\x27: " ++ pyRepr p.2 ++ ", " ++ pyReprFields ps

end

/-- Python `str()` of a JSON value (as interpolated into f-strings). -/
def pyStr : JValue → String
  | .null => "None"
  | .bool b => if b then "True" else "False"
  | .num n => toString n
  | .str s => s
  | .arr xs => "[" ++ pyReprList xs ++ "]"
  | .obj fs => "\x7b" ++ pyReprFields fs ++ "\x7d"

/-- Evaluate `f` left-to-right over a list, collecting the results and
propagating the first exception — the evaluation order of a Python list
comprehension. -/
def seqMapE (f : JValue → Except PyExn JValue) : List JValue → Except PyExn (List JValue)
  | [] => .ok []
  | x :: xs => do
    let y ← f x
    let ys ← seqMapE f xs
    return y :: ys

/-- Whether an `Except` computation succeeded. -/
def exceptIsOk {α : Type} : Except PyExn α → Bool
  | .ok _ => true
  | .error _ => false

/-! ## Conversation data model (langchain messages, `AgentState`) -/

/-- Role tag of a langchain message: `HumanMessage`, `AIMessage`,
`SystemMessage`, `ToolMessage`. -/
inductive Role where
  | user : Role
  | assistant : Role
  | system : Role
  | tool : Role
deriving DecidableEq

/-- A model-emitted tool invocation request: tool name, argument mapping
and correlation identifier (`t["name"]`, `t["args"]`, `t["id"]`). -/
structure ToolCall where
  id : String
  name : String
  args : JValue

/-- A conversation message.  `tool_calls` is the pending-invocation list of
an assistant message (empty otherwise); `tool_call_id` and `name` are the
extra fields of a `ToolMessage`. -/
structure Message where
  role : Role
  content : String
  tool_calls : List ToolCall := []
  tool_call_id : Option String := none
  name : Option String := none

/-- `AgentState` update: langgraph appends a node's returned message list
to the state (`messages: Annotated[list[AnyMessage], operator.add]`). -/
def applyDelta (msgs delta : List Message) : List Message :=
  msgs ++ delta

/-! ## Language-model client (`Agent.invoke_llama`) -/

/-- Outcome of the HTTP POST to the model endpoint.  `transportError`
is a `requests.exceptions.RequestException` (connection failure, or an
HTTP error status surfaced by `raise_for_status`).  `body chunks` is a
received body holding the sequence of newline-delimited JSON values it
consists of: a plain single-response body is the one-element sequence.
`response.json()` parses the whole body as one JSON document, so it
succeeds exactly on one-element bodies; on any other body it raises
`requests.exceptions.JSONDecodeError`, which (since requests 2.27) is a
subclass of `RequestException` and is caught by the same handler. -/
inductive ModelReply where
  | transportError : String → ModelReply
  | body : List JValue → ModelReply

/-- The JSON payload of the POST to the model endpoint. -/
def llamaPayload (prompt : String) : JValue :=
  .obj [("model", .str "llama3.2:latest"), ("prompt", .str prompt)]

/-- `Agent.invoke_llama` (src/agents/agent.py lines 170-182): POST the
prompt, return `response.json()["response"]`; any `RequestException` is
converted to the fixed sentinel string. A `KeyError` from the subscription
is not caught. -/
def invoke_llama (prompt : String) (reply : ModelReply) : Except PyExn JValue :=
  let _payload := llamaPayload prompt
  match reply with
  | .transportError _ => .ok (.str "Error communicating with the language model.")
  | .body chunks =>
    match chunks with
    | [j] => pyGetItem j (.str "response")
    | _ => .ok (.str "Error communicating with the language model.")

/-! ## Orchestrator (`Agent`) -/

/-- The registered tool names: `self._tools = {t.name: t for t in TOOLS}`
with `TOOLS = [flights_finder, hotels_finder, attractions_finder]` (a
langchain `@tool` is named after its function). -/
def agentToolNames : List String :=
  ["flights_finder", "hotels_finder", "attractions_finder"]

/-- `Agent.exists_action` (lines 114-119): route on the latest message.
`none` models the `IndexError` of `state["messages"][-1]` on an empty
conversation, which the graph never produces. -/
def exists_action (msgs : List Message) : Option String :=
  msgs.getLast?.map (fun result =>
    if result.tool_calls.length = 0 then "email_sender" else "more_tools")

/-- One iteration of the dispatch loop (lines 159-163): an unregistered
name yields the retry sentinel, a registered one runs
`self._tools[t["name"]].invoke(t["args"])` — abstracted as the oracle
`toolRun`, which returns the invoked tool's value or raises, as the real
`.invoke` can (pydantic `ValidationError` on malformed arguments, or any
exception the tool body does not catch, such as `attractions_finder`s
pre-`try` `IndexError` on a comma-less location) — and the resulting
message content is `str(result)`. -/
def toolResultContent (toolRun : String → JValue → Except PyExn JValue)
    (t : ToolCall) : Except PyExn String :=
  if agentToolNames.contains t.name then (toolRun t.name t.args).map pyStr
  else .ok "bad tool name, retry"

/-- The `for t in tool_calls` loop of `Agent.invoke_tools` (lines
157-166): one `ToolMessage` per tool call, in order; an exception raised
by an invocation aborts the loop, discarding the local `results` list. -/
def dispatchCalls (toolRun : String → JValue → Except PyExn JValue) :
    List ToolCall → Except PyExn (List Message)
  | [] => .ok []
  | t :: ts => do
    let content ← toolResultContent toolRun t
    let rest ← dispatchCalls toolRun ts
    return (⟨.tool, content, [], some t.id, some t.name⟩ : Message) :: rest

/-- `Agent.invoke_tools` (lines 154-168): dispatch every tool call of the
latest message.  `.error .indexError` models `state["messages"][-1]` on
an empty conversation; an exception raised by a registered invocation
propagates out of the node, which then appends nothing. -/
def invoke_tools (toolRun : String → JValue → Except PyExn JValue)
    (msgs : List Message) : Except PyExn (List Message) :=
  match msgs.getLast? with
  | none => .error .indexError
  | some last => dispatchCalls toolRun last.tool_calls

/-- `TOOLS_SYSTEM_PROMPT` (lines 26-35), an f-string interpolating
`CURRENT_YEAR = datetime.datetime.now().year`. -/
def TOOLS_SYSTEM_PROMPT (currentYear : Int) : String :=
  "You are a smart travel agency. Use the tools to look up information.\n" ++
  "    You are allowed to make multiple calls (either together or in sequence).\n" ++
  "    Only look up information when you are sure of what you want.\n" ++
  "    The current year is " ++ toString currentYear ++ ".\n" ++
  "    If you need to look up some information before asking a follow-up question, you are allowed to do that!\n" ++
  "    I want to have in your output links to hotels\x27 websites and flights\x27 websites (if possible).\n" ++
  "    I also want to include the logo of the hotel and the airline company (if possible).\n" ++
  "    In your output always include the price of the flight and the price of the hotel and the currency as well (if possible).\n" ++
  "    For attractions, include the name, type, and distance from the provided location.\n    "

/-- `Agent.call_tools_llm` (lines 146-152): concatenate the system prompt
with the newline-joined content of the whole history, call the model, and
return the response wrapped in a `SystemMessage` as the appended delta.
A non-string completion would fail `SystemMessage` content validation. -/
def call_tools_llm (currentYear : Int) (reply : ModelReply) (msgs : List Message) :
    Except PyExn (List Message) := do
  let prompt := TOOLS_SYSTEM_PROMPT currentYear ++ "\n\n" ++
    String.intercalate "\n" (msgs.map (fun m => m.content))
  let response ← invoke_llama prompt reply
  match response with
  | .str s => .ok [(⟨.system, s, [], none, none⟩ : Message)]
  | _ => .error .validationError

/-- `EMAILS_SYSTEM_PROMPT` (lines 39-87). -/
def EMAILS_SYSTEM_PROMPT : String :=
  "Your task is to convert structured markdown-like text into a valid HTML email body.\n\n" ++
  "- Do not include a ```html preamble in your response.\n" ++
  "- The output should be in proper HTML format, ready to be used as the body of an email.\n" ++
  "Here is an example:\n<example>\nInput:\n\n" ++
  "I want to travel to New York from Madrid from October 1-7. Find me flights and 4-star hotels.\n\n" ++
  "Expected Output:\n\n<!DOCTYPE html>\n<html>\n<head>\n" ++
  "    <title>Flight and Hotel Options</title>\n</head>\n<body>\n" ++
  "    <h2>Flights from Madrid to New York</h2>\n    <ol>\n        <li>\n" ++
  "            <strong>American Airlines</strong><br>\n" ++
  "            <strong>Departure:</strong> Adolfo Suárez Madrid–Barajas Airport (MAD) at 10:25 AM<br>\n" ++
  "            <strong>Arrival:</strong> John F. Kennedy International Airport (JFK) at 12:25 PM<br>\n" ++
  "            <strong>Duration:</strong> 8 hours<br>\n" ++
  "            <strong>Aircraft:</strong> Boeing 777<br>\n" ++
  "            <strong>Class:</strong> Economy<br>\n" ++
  "            <strong>Price:</strong> $702<br>\n" ++
  "            <img src=\"https://www.gstatic.com/flights/airline_logos/70px/AA.png\" alt=\"American Airlines\"><br>\n" ++
  "            <a href=\"https://www.google.com/flights\">Book on Google Flights</a>\n" ++
  "        </li>\n    </ol>\n\n    <h2>4-Star Hotels in New York</h2>\n    <ol>\n        <li>\n" ++
  "            <strong>NobleDen Hotel</strong><br>\n" ++
  "            <strong>Description:</strong> Modern, polished hotel offering sleek rooms, some with city-view balconies, plus free Wi-Fi.<br>\n" ++
  "            <strong>Rate per Night:</strong> $537<br>\n" ++
  "            <strong>Total Rate:</strong> $3,223<br>\n" ++
  "            <img src=\"https://lh5.googleusercontent.com/p/AF1QipNDUrPJwBhc9ysDhc8LA822H1ZzapAVa-WDJ2d6=s287-w287-h192-n-k-no-v1\" alt=\"NobleDen Hotel\"><br>\n" ++
  "            <a href=\"http://www.nobleden.com/\">Visit Website</a>\n" ++
  "        </li>\n    </ol>\n</body>\n</html>\n\n</example>\n"

/-- `Agent.email_sender` (lines 121-144): compose an HTML body from the
latest message via the model, attempt the Resend send inside
`try/except Exception` (both outcomes fall through to the implicit
`return None`, i.e. an empty state delta).  `sendResult` is the oracle for
the send attempt: the API response, or the raised exception's text. -/
def email_sender (llmReply : ModelReply) (sendResult : Except String JValue)
    (msgs : List Message) : Except PyExn (List Message) := do
  let last ← match msgs.getLast? with
    | some m => Except.ok m
    | none => Except.error PyExn.indexError
  let _emailResponse ← invoke_llama (EMAILS_SYSTEM_PROMPT ++ "\n\n" ++ last.content) llmReply
  match sendResult with
  | .ok _ => .ok []
  | .error _ => .ok []

/-! ## Flights tool (`src/agents/tools/flights_finder.py`) -/

/-- `FlightsInput` with its pydantic field defaults. -/
structure FlightsInput where
  departure_airport : Option String := none
  arrival_airport : Option String := none
  outbound_date : Option String := none
  return_date : Option String := none
  adults : Option Int := some 1
  children : Option Int := some 0
  infants_in_seat : Option Int := some 0
  infants_on_lap : Option Int := some 0
  currency : Option String := some "USD"
  travel_class : Option Int := some 1
  stops : Option String := some "0"
  max_price : Option Int := none
  gl : Option String := some "us"
  hl : Option String := some "en"

/-- Python `x or d` for an optional integer (`None` and `0` are falsy). -/
def pyOrInt (v : Option Int) (d : Int) : Int :=
  match v with
  | some x => if x = 0 then d else x
  | none => d

/-- Python `x or d` for an optional string (`None` and `""` are falsy). -/
def pyOrStr (v : Option String) (d : String) : String :=
  match v with
  | some s => if s = "" then d else s
  | none => d

/-- An optional string as the JSON value it contributes to a query dict. -/
def optJ : Option String → JValue
  | some s => .str s
  | none => .null

/-- The shared environment of one SerpApi tool call: the
`SERPAPI_API_KEY` variable (`none` when unset) and the outcome of the
HTTP GET (`error` being a raised `RequestException`, which since
requests 2.27 also covers `response.json()` decode failure). -/
structure SerpEnv where
  serpapiKey : Option String
  http : Except String JValue

/-- Python `if not api_key` on the result of `os.getenv`. -/
def envKeyMissing : Option String → Bool
  | none => true
  | some s => s == ""

/-- The `query_params` dict of `flights_finder` (lines 50-67). -/
def flightsQueryParams (params : FlightsInput) (apiKey : String) :
    List (String × JValue) :=
  [("api_key", .str apiKey),
   ("engine", .str "google_flights"),
   ("departure_id", optJ params.departure_airport),
   ("arrival_id", optJ params.arrival_airport),
   ("outbound_date", optJ params.outbound_date),
   ("return_date", optJ params.return_date),
   ("currency", optJ params.currency),
   ("adults", .num (pyOrInt params.adults 1)),
   ("children", .num (pyOrInt params.children 0)),
   ("infants_in_seat", .num (pyOrInt params.infants_in_seat 0)),
   ("infants_on_lap", .num (pyOrInt params.infants_on_lap 0)),
   ("travel_class", .num (pyOrInt params.travel_class 1)),
   ("stops", .str (pyOrStr params.stops "0")),
   ("max_price", match params.max_price with | some n => .num n | none => .null),
   ("gl", optJ params.gl),
   ("hl", optJ params.hl)]

/-- The record built for one flight inside the list comprehension
(lines 87-99), with the source's evaluation order. -/
def processFlight (flight : JValue) : Except PyExn JValue := do
  let fl ← pyGetItem flight (.str "flights")
  let f0 ← pyGetItem fl (.num 0)
  let airline ← pyDictGet f0 "airline" .null
  let price ← pyDictGet flight "price" .null
  let dep ← pyGetItem f0 (.str "departure_airport")
  let depTime ← pyDictGet dep "time" .null
  let arrA ← pyGetItem f0 (.str "arrival_airport")
  let arrTime ← pyDictGet arrA "time" .null
  let dur ← pyDictGet f0 "duration" .null
  let lay ← pyDictGet flight "layovers" (.arr [])
  let stops ← pyLen lay
  let tok ← pyDictGet flight "booking_token" .null
  return .obj [("airline", airline), ("price", price), ("departure_time", depTime),
    ("arrival_time", arrTime), ("duration", dur), ("stops", .num (Int.ofNat stops)),
    ("booking_token", tok),
    ("link", .str ("https://www.google.com/flights?token=" ++ pyStr tok))]

/-- Body of `flights_finder`s `try` block after a successful HTTP GET
(lines 75-99): status check, empty-result check, flight processing. -/
def flights_body (data : JValue) : Except PyExn JValue := do
  let md ← pyDictGet data "search_metadata" (.obj [])
  let status ← pyDictGet md "status" .null
  if pyEqStr status "Success" = false then
    let md2 ← pyDictGet data "search_metadata" (.obj [])
    let errv ← pyDictGet md2 "error" (.str "Unknown error occurred.")
    return .obj [("error", errv)]
  else
    let bf ← pyDictGet data "best_flights" (.arr [])
    let flights ← if pyTruthy bf then pure bf else pyDictGet data "other_flights" (.arr [])
    if pyTruthy flights = false then
      return .obj [("message", .str "No flights found for the given criteria.")]
    else
      match flights with
      | .arr fs => do
        let l ← seqMapE processFlight fs
        return .arr l
      | _ => .error .typeError

/-- `flights_finder` (lines 36-104): missing-credential check, HTTP GET,
then the body; a raised `RequestException` or `KeyError` is converted to
an error dict, any other exception propagates. -/
def flights_finder (params : FlightsInput) (env : SerpEnv) : Except PyExn JValue :=
  if envKeyMissing env.serpapiKey then
    .ok (.obj [("error", .str "SERPAPI_API_KEY is missing. Please set it in your .env file.")])
  else
    let _query := flightsQueryParams params (env.serpapiKey.getD "")
    match env.http with
    | .error e =>
      .ok (.obj [("error", .str ("An error occurred while communicating with the API: " ++ e))])
    | .ok data =>
      match flights_body data with
      | .error (.keyError k) =>
        .ok (.obj [("error", .str ("Unexpected response format. Missing key: \x27" ++ k ++ "\x27"))])
      | r => r

/-! ## Hotels tool (`src/agents/tools/hotels_finder.py`) -/

/-- `HotelsInput` with its pydantic field defaults. -/
structure HotelsInput where
  q : String
  check_in_date : String
  check_out_date : String
  sort_by : Option String := none
  adults : Option Int := some 2
  children : Option Int := some 0
  children_ages : Option String := none
  min_price : Option Int := none
  max_price : Option Int := none
  hotel_class : Option String := none
  free_cancellation : Option Bool := some false
  special_offers : Option Bool := some false
  eco_certified : Option Bool := some false
  currency : Option String := some "USD"

/-- `sort_by_mapping.get(params.sort_by, None)` (lines 149-154). -/
def sortByMapping : Option String → Option String
  | some "lowest_price" => some "3"
  | some "highest_rating" => some "8"
  | some "most_reviewed" => some "13"
  | _ => none

/-- Python `str(b).lower()` for an optional bool. -/
def pyBoolStrLower : Option Bool → String
  | none => "none"
  | some true => "true"
  | some false => "false"

/-- The `query_params` dict of `hotels_finder` (lines 156-176), with
`None`-valued entries removed as by the dict comprehension. -/
def hotelsQueryParams (params : HotelsInput) (apiKey : String) :
    List (String × JValue) :=
  ([("engine", some (JValue.str "google_hotels")),
    ("q", some (.str params.q)),
    ("check_in_date", some (.str params.check_in_date)),
    ("check_out_date", some (.str params.check_out_date)),
    ("adults", params.adults.map (fun n => JValue.num n)),
    ("children", params.children.map (fun n => JValue.num n)),
    ("currency", params.currency.map JValue.str),
    ("sort_by", (sortByMapping params.sort_by).map JValue.str),
    ("min_price", params.min_price.map (fun n => JValue.num n)),
    ("max_price", params.max_price.map (fun n => JValue.num n)),
    ("hotel_class", params.hotel_class.map JValue.str),
    ("free_cancellation", some (.str (pyBoolStrLower params.free_cancellation))),
    ("special_offers", some (.str (pyBoolStrLower params.special_offers))),
    ("eco_certified", some (.str (pyBoolStrLower params.eco_certified))),
    ("children_ages", params.children_ages.map JValue.str),
    ("api_key", some (.str apiKey))]).filterMap
      (fun p => p.2.map (fun v => (p.1, v)))

/-- The record built for one property inside the list comprehension
(lines 186-199), with the source's evaluation order. -/
def hotelRecord (property : JValue) : Except PyExn JValue := do
  let name ← pyDictGet property "name" .null
  let description ← pyDictGet property "description" .null
  let address ← pyDictGet property "address" .null
  let rate ← pyDictGet property "rate_per_night" (.obj [])
  let ppn ← pyDictGet rate "lowest" .null
  let tot ← pyDictGet property "total_rate" (.obj [])
  let totalPrice ← pyDictGet tot "lowest" .null
  let rating ← pyDictGet property "overall_rating" .null
  let reviews ← pyDictGet property "reviews" .null
  let hclass ← pyDictGet property "hotel_class" .null
  let url ← pyDictGet property "link" .null
  return .obj [("name", name), ("description", description), ("address", address),
    ("price_per_night", ppn), ("total_price", totalPrice), ("rating", rating),
    ("reviews_count", reviews), ("hotel_class", hclass), ("url", url)]

/-- Body of `hotels_finder`s `try` block after a successful HTTP GET
(lines 181-199): membership test, then the top-10 slice mapped to
records. -/
def hotels_body (results : JValue) : Except PyExn JValue := do
  let hasProps ← pyContains results "properties"
  if hasProps = false then
    return .obj [("message", .str "No hotels found for the given criteria.")]
  else do
    let props ← pyGetItem results (.str "properties")
    match props with
    | .arr xs => do
      let l ← seqMapE hotelRecord (xs.take 10)
      return .arr l
    | _ => .error .typeError

/-- `hotels_finder` (lines 134-202): missing-credential check, HTTP GET,
then the body; only a raised `RequestException` is converted to an error
dict. -/
def hotels_finder (params : HotelsInput) (env : SerpEnv) : Except PyExn JValue :=
  if envKeyMissing env.serpapiKey then
    .ok (.obj [("error", .str "SERPAPI_API_KEY is missing. Please set it in your environment variables.")])
  else
    let _query := hotelsQueryParams params (env.serpapiKey.getD "")
    match env.http with
    | .error e =>
      .ok (.obj [("error", .str ("An error occurred while fetching hotel data: " ++ e))])
    | .ok results => hotels_body results

/-! ## Attractions tool (`src/agents/tools/attractions_finder.py`) -/

/-- `AttractionsInput` with its pydantic field defaults. -/
structure AttractionsInput where
  location : String
  radius : Int := 1000
  category : Option String := some "tourism"

/-- `tags.get(None, default)`: the key `None` is never present in a dict
parsed from JSON (whose keys are strings), so the default is returned;
a non-dict receiver still raises `AttributeError`. -/
def pyNoneKeyGet (v : JValue) (d : JValue) : Except PyExn JValue :=
  match v with
  | .obj _ => .ok d
  | _ => .error .attributeError

/-- The Overpass QL query string (lines 239-247), built before the `try`
block; `location.split(',')[1]` raises `IndexError` when the location has
no comma. -/
def attractionsQuery (params : AttractionsInput) : Except PyExn String := do
  -- `Char.ofNat 44` is the comma, the separator of `location.split(',')`
  let lat ← pyListIdx (pySplit params.location (Char.ofNat 44)) 0
  let lon ← pyListIdx (pySplit params.location (Char.ofNat 44)) 1
  let cat := match params.category with | some c => c | none => "None"
  let line := fun (kind : String) =>
    "      " ++ kind ++ "[\"" ++ cat ++ "\"](around:" ++ toString params.radius ++
      "," ++ lat ++ "," ++ lon ++ ");\n"
  return "\n    [out:json];\n    (\n" ++ line "node" ++ line "way" ++
    line "relation" ++ "    );\n    out center;\n    "

/-- The record built for one tagged element (lines 261-267), with the
source's evaluation order (the default of an outer `get` is evaluated
first). -/
def attractionRecord (category : Option String) (el : JValue) : Except PyExn JValue := do
  let tags ← pyGetItem el (.str "tags")
  let name ← pyDictGet tags "name" (.str "Unnamed")
  let typ ← match category with
    | some c => pyDictGet tags c (.str "Unknown")
    | none => pyNoneKeyGet tags (.str "Unknown")
  let center ← pyDictGet el "center" (.obj [])
  let clat ← pyDictGet center "lat" .null
  let lat ← pyDictGet el "lat" clat
  let center2 ← pyDictGet el "center" (.obj [])
  let clon ← pyDictGet center2 "lon" .null
  let lon ← pyDictGet el "lon" clon
  return .obj [("name", name), ("type", typ), ("lat", lat), ("lon", lon),
    ("details", tags)]

/-- The result-accumulation loop of `attractions_finder` (lines 258-268):
keep exactly the elements carrying a `tags` key, in order. -/
def collectAttractions (category : Option String) : List JValue → Except PyExn (List JValue)
  | [] => .ok []
  | el :: rest => do
    let hasTags ← pyContains el "tags"
    if hasTags then do
      let r ← attractionRecord category el
      let rs ← collectAttractions category rest
      return r :: rs
    else
      collectAttractions category rest

/-- Body of `attractions_finder`s `try` block after a successful HTTP GET
(lines 255-274). -/
def attractions_body (category : Option String) (data : JValue) : Except PyExn JValue := do
  let elemsV ← pyDictGet data "elements" (.arr [])
  match elemsV with
  | .arr es => do
    let results ← collectAttractions category es
    if results.isEmpty then
      return .obj [("message", .str "No attractions found for the given location and criteria.")]
    else
      return .arr results
  | _ => .error .typeError

/-- `attractions_finder` (lines 226-279): query construction (outside the
`try` block), HTTP GET, then the body.  The source's separate
`except ValueError` clause is subsumed here by the `RequestException`
branch of the HTTP oracle, since `requests.exceptions.JSONDecodeError`
inherits from both and the `RequestException` clause comes first. -/
def attractions_finder (params : AttractionsInput) (http : Except String JValue) :
    Except PyExn JValue := do
  let _query ← attractionsQuery params
  match http with
  | .error e =>
    .ok (.obj [("error", .str ("An error occurred while fetching attractions: " ++ e))])
  | .ok data => attractions_body params.category data

/-! ## General helper lemmas -/

/-- Decompose a successful `Except` bind. -/
theorem exceptBindOkElim {α β : Type} {x : Except PyExn α} {f : α → Except PyExn β} {b : β}
    (h : (x >>= f) = Except.ok b) : ∃ a, x = Except.ok a ∧ f a = Except.ok b := by
  cases x with
  | error e => exact absurd h (by simp [bind, Except.bind])
  | ok a => exact ⟨a, rfl, h⟩

/-- Bind on a success reduces to the continuation. -/
theorem exceptBindOk {α β : Type} (a : α) (f : α → Except PyExn β) :
    (Except.ok a >>= f) = f a := rfl

/-- Bind on an exception propagates it. -/
theorem exceptBindErr {α β : Type} (e : PyExn) (f : α → Except PyExn β) :
    ((Except.error e : Except PyExn α) >>= f) = .error e := rfl

/-! ## C1: routing predicate -/

/-- Claim C1: for every conversation state with a non-empty message list,
`exists_action` selects the tool-dispatch branch (`"more_tools"`) iff the
latest message carries at least one tool invocation request, and selects
the email-sender branch (`"email_sender"`) otherwise. -/
theorem exists_action_routing (ms : List Message) (m : Message) :
    (exists_action (ms ++ [m]) = some "more_tools" ↔ m.tool_calls ≠ []) ∧
    (exists_action (ms ++ [m]) = some "email_sender" ↔ m.tool_calls = []) := by
  unfold exists_action
  rw [List.getLast?_concat]
  by_cases hc : m.tool_calls = []
  · simp [hc]
  · have hlen : m.tool_calls.length ≠ 0 := by simpa [List.length_eq_zero] using hc
    simp [hc, hlen]

/-! ## C2 and C3: tool dispatch -/

/-- When every content computation of a round succeeds, the dispatch loop
returns one tool message per request, in order, with the request's id and
name, an empty `tool_calls` list, and the computed content. -/
theorem dispatchCalls_all_ok (toolRun : String → JValue → Except PyExn JValue)
    (ts : List ToolCall)
    (h : ts.all (fun t => exceptIsOk (toolResultContent toolRun t)) = true) :
    ∃ rs, dispatchCalls toolRun ts = .ok rs ∧
      rs.length = ts.length ∧
      ∀ i (h1 : i < rs.length) (h2 : i < ts.length),
        (rs.get ⟨i, h1⟩).role = Role.tool ∧
        (rs.get ⟨i, h1⟩).tool_call_id = some (ts.get ⟨i, h2⟩).id ∧
        (rs.get ⟨i, h1⟩).name = some (ts.get ⟨i, h2⟩).name ∧
        (rs.get ⟨i, h1⟩).tool_calls = [] ∧
        toolResultContent toolRun (ts.get ⟨i, h2⟩) = .ok (rs.get ⟨i, h1⟩).content := by
  induction ts with
  | nil => exact ⟨[], rfl, rfl, fun i h1 h2 => absurd h1 (by simp)⟩
  | cons t ts ih =>
    rw [List.all_cons, Bool.and_eq_true] at h
    obtain ⟨hx, hrest⟩ := h
    obtain ⟨rs, hrs, hlen, hidx⟩ := ih hrest
    cases hc : toolResultContent toolRun t with
    | error e => rw [hc] at hx; exact absurd hx (by simp [exceptIsOk])
    | ok c =>
      refine ⟨(⟨.tool, c, [], some t.id, some t.name⟩ : Message) :: rs, ?_,
        by simp [hlen], ?_⟩
      · simp [dispatchCalls, hc, hrs, bind, Except.bind, pure, Except.pure]
      · intro i h1 h2
        cases i with
        | zero => exact ⟨rfl, rfl, rfl, rfl, hc⟩
        | succ n =>
          have h1n : n < rs.length := by simpa using h1
          have h2n : n < ts.length := by simpa using h2
          exact hidx n h1n h2n

/-- Counterexample to claim C2: a round whose single request names the
registered tool `attractions_finder` with a comma-less location — on
which the tool raises `IndexError` before its `try` block, as the first
conjunct shows on the embedded tool itself — aborts the dispatch with
that exception and produces no tool-result message at all. -/
theorem invoke_tools_raise_counterexample :
    attractions_finder ⟨"Paris", 1000, some "tourism"⟩ (.ok (.obj [])) =
      .error .indexError ∧
    invoke_tools (fun _ _ => .error .indexError)
      [(⟨.assistant, "plan", [⟨"id1", "attractions_finder",
        .obj [("params", .obj [("location", .str "Paris")])]⟩],
        none, none⟩ : Message)] = .error .indexError ∧
    exceptIsOk (invoke_tools (fun _ _ => .error .indexError)
      [(⟨.assistant, "plan", [⟨"id1", "attractions_finder",
        .obj [("params", .obj [("location", .str "Paris")])]⟩],
        none, none⟩ : Message)]) = false :=
  ⟨rfl, rfl, rfl⟩

/-- Claim C2 as amended: for every list of tool invocation requests in
the latest message whose registered invocations all return normally, one
dispatch round produces exactly one tool-result message per request, in
request order, each carrying the originating request's correlation
identifier and tool name; a raising invocation instead aborts the round
with no messages. -/
theorem invoke_tools_pairing (toolRun : String → JValue → Except PyExn JValue)
    (ms : List Message) (m : Message)
    (hok : m.tool_calls.all (fun t => exceptIsOk (toolResultContent toolRun t)) = true) :
    ∃ rs, invoke_tools toolRun (ms ++ [m]) = .ok rs ∧
      rs.length = m.tool_calls.length ∧
      ∀ i (h1 : i < rs.length) (h2 : i < m.tool_calls.length),
        (rs.get ⟨i, h1⟩).role = Role.tool ∧
        (rs.get ⟨i, h1⟩).tool_call_id = some (m.tool_calls.get ⟨i, h2⟩).id ∧
        (rs.get ⟨i, h1⟩).name = some (m.tool_calls.get ⟨i, h2⟩).name := by
  obtain ⟨rs, hrs, hlen, hidx⟩ := dispatchCalls_all_ok toolRun m.tool_calls hok
  refine ⟨rs, ?_, hlen, fun i h1 h2 =>
    ⟨(hidx i h1 h2).1, (hidx i h1 h2).2.1, (hidx i h1 h2).2.2.1⟩⟩
  unfold invoke_tools
  rw [List.getLast?_concat]
  exact hrs

/-- Counterexample to claim C3: a round containing the unregistered name
`fake_tool` and a registered `attractions_finder` invocation that raises
(comma-less location) aborts with the exception — the unregistered
request yields no synthetic message and the round does not complete
normally. -/
theorem invoke_tools_bad_name_counterexample :
    invoke_tools (fun _ _ => .error .indexError)
      [(⟨.assistant, "plan",
        [⟨"id1", "fake_tool", .null⟩,
         ⟨"id2", "attractions_finder",
           .obj [("params", .obj [("location", .str "Paris")])]⟩],
        none, none⟩ : Message)] = .error .indexError ∧
    exceptIsOk (invoke_tools (fun _ _ => .error .indexError)
      [(⟨.assistant, "plan",
        [⟨"id1", "fake_tool", .null⟩,
         ⟨"id2", "attractions_finder",
           .obj [("params", .obj [("location", .str "Paris")])]⟩],
        none, none⟩ : Message)]) = false :=
  ⟨rfl, rfl⟩

/-- Claim C3 as amended: provided the round's registered invocations all
return normally, a request naming an unregistered tool yields exactly one
synthetic tool-result message whose content is the retry-instruction
string, and the dispatch round completes normally (a result list is
returned, no exception). -/
theorem invoke_tools_bad_tool_name (toolRun : String → JValue → Except PyExn JValue)
    (ms : List Message) (m : Message) (i : Nat) (h2 : i < m.tool_calls.length)
    (hbad : (m.tool_calls.get ⟨i, h2⟩).name ∉ agentToolNames)
    (hok : m.tool_calls.all (fun t => exceptIsOk (toolResultContent toolRun t)) = true) :
    ∃ rs, invoke_tools toolRun (ms ++ [m]) = .ok rs ∧
      rs.length = m.tool_calls.length ∧
      ∀ h1 : i < rs.length,
        rs.get ⟨i, h1⟩ = (⟨.tool, "bad tool name, retry", [],
          some (m.tool_calls.get ⟨i, h2⟩).id,
          some (m.tool_calls.get ⟨i, h2⟩).name⟩ : Message) := by
  obtain ⟨rs, hrs, hlen, hidx⟩ := dispatchCalls_all_ok toolRun m.tool_calls hok
  refine ⟨rs, ?_, hlen, ?_⟩
  · unfold invoke_tools
    rw [List.getLast?_concat]
    exact hrs
  · intro h1
    obtain ⟨hrole, hid, hname, htc, hcontent⟩ := hidx i h1 h2
    have hcont : agentToolNames.contains (m.tool_calls.get ⟨i, h2⟩).name = false := by
      simpa using hbad
    have hsent : toolResultContent toolRun (m.tool_calls.get ⟨i, h2⟩) =
        .ok "bad tool name, retry" := by
      unfold toolResultContent
      rw [hcont]
      simp
    rw [hsent] at hcontent
    have hcnt : (rs.get ⟨i, h1⟩).content = "bad tool name, retry" := by
      injection hcontent with hh
      exact hh.symm
    have heta : rs.get ⟨i, h1⟩ = ⟨(rs.get ⟨i, h1⟩).role, (rs.get ⟨i, h1⟩).content,
        (rs.get ⟨i, h1⟩).tool_calls, (rs.get ⟨i, h1⟩).tool_call_id,
        (rs.get ⟨i, h1⟩).name⟩ := rfl
    rw [heta, hrole, hcnt, htc, hid, hname]

/-- Witness for the amended C3: a single dispatch of the unregistered
name `"fake_tool"` in a round with no raising invocation. -/
theorem invoke_tools_bad_tool_name_witness :
    (([⟨"call1", "fake_tool", .null⟩] : List ToolCall).all
      (fun t => exceptIsOk (toolResultContent (fun _ _ => .ok .null) t)) = true) ∧
    ∃ rs, invoke_tools (fun _ _ => .ok .null)
        ([] ++ [(⟨.assistant, "x", [⟨"call1", "fake_tool", .null⟩],
          none, none⟩ : Message)]) = .ok rs ∧
      rs.length = 1 ∧
      ∀ h1 : 0 < rs.length,
        rs.get ⟨0, h1⟩ = (⟨.tool, "bad tool name, retry", [],
          some "call1", some "fake_tool"⟩ : Message) :=
  ⟨rfl, invoke_tools_bad_tool_name (fun _ _ => .ok .null) []
    ⟨.assistant, "x", [⟨"call1", "fake_tool", .null⟩], none, none⟩ 0
    (by decide) (by decide) rfl⟩

/-! ## C5: model-client transport failure -/

/-- Claim C5: a transport-level request failure makes `invoke_llama`
return the fixed sentinel text — a string result — instead of raising. -/
theorem invoke_llama_sentinel (prompt e : String) :
    invoke_llama prompt (.transportError e) =
      .ok (.str "Error communicating with the language model.") := rfl

/-! ## C8: no incremental transport mode -/

/-- Counterexample to claim C8: on the fragment sequence
`["Par", "is is", " great"]` with a terminal done flag, `invoke_llama`
returns the sentinel error string, not the concatenation
`"Paris is great"` — the client has no incremental assembly. -/
theorem invoke_llama_no_incremental_mode :
    invoke_llama "p" (.body
      [.obj [("response", .str "Par"), ("done", .bool false)],
       .obj [("response", .str "is is"), ("done", .bool false)],
       .obj [("response", .str " great"), ("done", .bool true)]]) =
      .ok (.str "Error communicating with the language model.") ∧
    ("Error communicating with the language model." : String) ≠ "Paris is great" :=
  ⟨rfl, by decide⟩

/-- Claim C8 as amended: the model client supports only the
single-response mode — a single-document body yields its `response`
field, while a body of two or more fragments is never concatenated but
caught as a decode failure and turned into the sentinel string. -/
theorem invoke_llama_single_mode (prompt : String) (j v : JValue)
    (h : pyGetItem j (.str "response") = .ok v) (c1 c2 : JValue) (rest : List JValue) :
    invoke_llama prompt (.body [j]) = .ok v ∧
    invoke_llama prompt (.body (c1 :: c2 :: rest)) =
      .ok (.str "Error communicating with the language model.") :=
  ⟨h, rfl⟩

/-- Witness for the amended C8 at a concrete single-document body and a
concrete two-fragment body. -/
theorem invoke_llama_single_mode_witness :
    pyGetItem (.obj [("response", .str "Paris is great"), ("done", .bool true)])
        (.str "response") = .ok (.str "Paris is great") ∧
    (invoke_llama "p" (.body [.obj [("response", .str "Paris is great"), ("done", .bool true)]]) =
        .ok (.str "Paris is great") ∧
      invoke_llama "p" (.body [.null, .null]) =
        .ok (.str "Error communicating with the language model.")) :=
  ⟨rfl, invoke_llama_single_mode "p"
    (.obj [("response", .str "Paris is great"), ("done", .bool true)])
    (.str "Paris is great") rfl .null .null []⟩

/-! ## C7: model-call step -/

/-- Counterexample to claim C7: at a concrete state the message appended
by `call_tools_llm` carries the system role, not the assistant role. -/
theorem call_tools_llm_role_counterexample :
    call_tools_llm 2024 (.body [.obj [("response", .str "hello")]])
        [(⟨.user, "hi", [], none, none⟩ : Message)] =
      .ok [(⟨.system, "hello", [], none, none⟩ : Message)] ∧
    Role.system ≠ Role.assistant :=
  ⟨rfl, by decide⟩

/-- Claim C7 as amended: `call_tools_llm` builds its prompt by
concatenating the fixed system instruction with the newline-joined text
content of the full message history, and appends the model's response to
the conversation as a single new system-instruction message. -/
theorem call_tools_llm_prompt_and_append (y : Int) (reply : ModelReply)
    (msgs : List Message) (s : String)
    (h : invoke_llama (TOOLS_SYSTEM_PROMPT y ++ "\n\n" ++
      String.intercalate "\n" (msgs.map (fun m => m.content))) reply = .ok (.str s)) :
    call_tools_llm y reply msgs = .ok [(⟨.system, s, [], none, none⟩ : Message)] := by
  simp only [call_tools_llm]
  rw [h]
  rfl

/-- Witness for the amended C7 at a concrete reply and history. -/
theorem call_tools_llm_prompt_and_append_witness :
    invoke_llama (TOOLS_SYSTEM_PROMPT 2024 ++ "\n\n" ++
        String.intercalate "\n"
          (([(⟨.user, "hi", [], none, none⟩ : Message)]).map (fun m => m.content)))
      (.body [.obj [("response", .str "hello")]]) = .ok (.str "hello") ∧
    call_tools_llm 2024 (.body [.obj [("response", .str "hello")]])
      [(⟨.user, "hi", [], none, none⟩ : Message)] =
      .ok [(⟨.system, "hello", [], none, none⟩ : Message)] :=
  ⟨rfl, call_tools_llm_prompt_and_append 2024 _ _ "hello" rfl⟩

/-! ## C9: email-sender frame property -/

/-- Closed form of an `email_sender` node run: the send outcome is
irrelevant, and a successful run returns the empty delta. -/
theorem email_sender_run_eq (llm : ModelReply) (send : Except String JValue)
    (msgs : List Message) :
    email_sender llm send msgs =
      match msgs.getLast? with
      | none => .error .indexError
      | some last =>
        match invoke_llama (EMAILS_SYSTEM_PROMPT ++ "\n\n" ++ last.content) llm with
        | .ok _ => .ok []
        | .error e => .error e := by
  unfold email_sender
  cases msgs.getLast? with
  | none => rfl
  | some last =>
    cases hres : invoke_llama (EMAILS_SYSTEM_PROMPT ++ "\n\n" ++ last.content) llm with
    | ok v => cases send <;> simp [hres, bind, Except.bind]
    | error e => simp [hres, bind, Except.bind]

/-- Claim C9: the email-sender step leaves the conversation state
unchanged — its result does not depend on whether the send succeeds or
raises, and whenever the node completes it returns an empty delta, so the
updated state equals the old one (no message appended or mutated). -/
theorem email_sender_frame (llm : ModelReply) (send send2 : Except String JValue)
    (msgs : List Message) :
    email_sender llm send msgs = email_sender llm send2 msgs ∧
    ∀ d, email_sender llm send msgs = .ok d → applyDelta msgs d = msgs := by
  constructor
  · rw [email_sender_run_eq llm send msgs, email_sender_run_eq llm send2 msgs]
  · intro d hd
    rw [email_sender_run_eq] at hd
    cases hgl : msgs.getLast? with
    | none =>
      simp only [hgl] at hd
      exact absurd hd (by simp)
    | some last =>
      simp only [hgl] at hd
      cases hres : invoke_llama (EMAILS_SYSTEM_PROMPT ++ "\n\n" ++ last.content) llm with
      | ok v =>
        rw [hres] at hd
        have hde : ([] : List Message) = d := by
          injection hd
        subst hde
        simp [applyDelta]
      | error e =>
        rw [hres] at hd
        exact absurd hd (by simp)

/-- Witness for C9 at a concrete state: a failing and a succeeding send
give the same node result, and the empty delta leaves the state as is. -/
theorem email_sender_frame_witness :
    (email_sender (.body [.obj [("response", .str "<p>x</p>")]]) (.error "boom")
        [(⟨.user, "hi", [], none, none⟩ : Message)] =
      email_sender (.body [.obj [("response", .str "<p>x</p>")]]) (.ok .null)
        [(⟨.user, "hi", [], none, none⟩ : Message)]) ∧
    applyDelta [(⟨.user, "hi", [], none, none⟩ : Message)] [] =
      [(⟨.user, "hi", [], none, none⟩ : Message)] :=
  ⟨(email_sender_frame (.body [.obj [("response", .str "<p>x</p>")]]) (.error "boom")
      (.ok .null) [(⟨.user, "hi", [], none, none⟩ : Message)]).1,
   (email_sender_frame (.body [.obj [("response", .str "<p>x</p>")]]) (.error "boom")
      (.ok .null) [(⟨.user, "hi", [], none, none⟩ : Message)]).2 [] rfl⟩

/-! ## Support lemmas for the tool proofs -/

/-- A successful lookup only happens on an object. -/
theorem jFind_some_obj (v : JValue) (k : String) (x : JValue)
    (h : jFind v k = some x) : ∃ fs, v = .obj fs := by
  cases v
  case obj fs => exact ⟨fs, rfl⟩
  all_goals simp [jFind] at h

/-- `receiver.get` on an object returns the defaulted lookup. -/
theorem pyDictGet_obj (fs : List (String × JValue)) (k : String) (d : JValue) :
    pyDictGet (.obj fs) k d = .ok (jGetD (.obj fs) k d) := rfl

/-- A successful `receiver.get` means the receiver is an object. -/
theorem pyDictGet_ok_obj {v : JValue} {k : String} {d x : JValue}
    (h : pyDictGet v k d = .ok x) : ∃ fs, v = .obj fs := by
  cases v
  case obj fs => exact ⟨fs, rfl⟩
  all_goals simp [pyDictGet] at h

/-- A comprehension whose element computations all succeed succeeds, with
one output per input and every output produced from some input. -/
theorem seqMapE_all_ok (f : JValue → Except PyExn JValue) (l : List JValue)
    (h : l.all (fun p => exceptIsOk (f p)) = true) :
    ∃ ys, seqMapE f l = .ok ys ∧ ys.length = l.length ∧
      ∀ y ∈ ys, ∃ x ∈ l, f x = .ok y := by
  induction l with
  | nil => exact ⟨[], rfl, rfl, by simp⟩
  | cons x xs ih =>
    rw [List.all_cons, Bool.and_eq_true] at h
    obtain ⟨hx, hxs⟩ := h
    obtain ⟨ys, hys, hlen, hmem⟩ := ih hxs
    cases hfx : f x with
    | error e => rw [hfx] at hx; exact absurd hx (by simp [exceptIsOk])
    | ok y =>
      refine ⟨y :: ys, ?_, by simp [hlen], ?_⟩
      · simp [seqMapE, hfx, hys, bind, Except.bind, pure, Except.pure]
      · intro z hz
        rcases List.mem_cons.mp hz with hz | hz
        · exact ⟨x, List.mem_cons_self x xs, hz ▸ hfx⟩
        · obtain ⟨w, hw, hfw⟩ := hmem z hz
          exact ⟨w, List.mem_cons_of_mem x hw, hfw⟩

/-- Any successful `hotelRecord` output is an object with exactly the nine
documented keys, in order. -/
theorem hotelRecord_keys (p r : JValue) (h : hotelRecord p = .ok r) :
    jKeys r = ["name", "description", "address", "price_per_night", "total_price",
      "rating", "reviews_count", "hotel_class", "url"] := by
  unfold hotelRecord at h
  obtain ⟨v1, h1, h⟩ := exceptBindOkElim h
  obtain ⟨v2, h2, h⟩ := exceptBindOkElim h
  obtain ⟨v3, h3, h⟩ := exceptBindOkElim h
  obtain ⟨v4, h4, h⟩ := exceptBindOkElim h
  obtain ⟨v5, h5, h⟩ := exceptBindOkElim h
  obtain ⟨v6, h6, h⟩ := exceptBindOkElim h
  obtain ⟨v7, h7, h⟩ := exceptBindOkElim h
  obtain ⟨v8, h8, h⟩ := exceptBindOkElim h
  obtain ⟨v9, h9, h⟩ := exceptBindOkElim h
  obtain ⟨v10, h10, h⟩ := exceptBindOkElim h
  obtain ⟨v11, h11, h⟩ := exceptBindOkElim h
  have hr : JValue.obj [("name", v1), ("description", v2), ("address", v3),
      ("price_per_night", v5), ("total_price", v7), ("rating", v8),
      ("reviews_count", v9), ("hotel_class", v10), ("url", v11)] = r := by
    injection h
  rw [← hr]
  rfl

/-! ## C6: hotels tool top-N and key set -/

/-- Claim C6: when the provider response carries a `properties` list (of
normalizable property records), `hotels_finder` returns a list of at most
10 records, each a mapping with exactly the keys name, description,
address, price_per_night, total_price, rating, reviews_count, hotel_class
and url. -/
theorem hotels_finder_topN (params : HotelsInput) (k : String) (results : JValue)
    (xs : List JValue)
    (hkey : (k == "") = false)
    (hprops : jFind results "properties" = some (.arr xs))
    (hok : (xs.take 10).all (fun p => exceptIsOk (hotelRecord p)) = true) :
    ∃ recs, hotels_finder params ⟨some k, .ok results⟩ = .ok (.arr recs) ∧
      recs.length ≤ 10 ∧
      ∀ r ∈ recs, jKeys r = ["name", "description", "address", "price_per_night",
        "total_price", "rating", "reviews_count", "hotel_class", "url"] := by
  obtain ⟨fs, rfl⟩ := jFind_some_obj results "properties" _ hprops
  obtain ⟨ys, hys, hlen, hmem⟩ := seqMapE_all_ok hotelRecord (xs.take 10) hok
  have hcontains : pyContains (JValue.obj fs) "properties" = .ok true := by
    simp only [pyContains, jHasKey, hprops, Option.isSome_some]
  have hgetitem : pyGetItem (JValue.obj fs) (.str "properties") = .ok (.arr xs) := by
    have hf : (fs.find? (fun p => p.1 == "properties")).map (fun p => p.2) =
        some (.arr xs) := hprops
    simp [pyGetItem, hf]
  refine ⟨ys, ?_, ?_, ?_⟩
  · unfold hotels_finder
    rw [show envKeyMissing (some k) = false from hkey]
    simp only [Bool.false_eq_true, if_false]
    unfold hotels_body
    rw [hcontains, exceptBindOk]
    simp only [Bool.true_eq_false, if_false]
    rw [hgetitem, exceptBindOk]
    show (do
      let l ← seqMapE hotelRecord (xs.take 10)
      pure (JValue.arr l) : Except PyExn JValue) = .ok (.arr ys)
    rw [hys, exceptBindOk]
    rfl
  · rw [hlen, List.length_take]
    exact Nat.min_le_left 10 xs.length
  · intro r hr
    obtain ⟨x, hx, hfx⟩ := hmem r hr
    exact hotelRecord_keys x r hfx

/-- Witness for C6 at a concrete one-property response. -/
theorem hotels_finder_topN_witness :
    (("key" == "") = false) ∧
    jFind (.obj [("properties", .arr [.obj [("name", .str "H1")]])]) "properties" =
      some (.arr [.obj [("name", .str "H1")]]) ∧
    (([.obj [("name", .str "H1")]] : List JValue).take 10).all
      (fun p => exceptIsOk (hotelRecord p)) = true ∧
    ∃ recs, hotels_finder
        ⟨"Paris", "2026-06-22", "2026-06-28", none, some 2, some 0, none, none,
          none, none, some false, some false, some false, some "USD"⟩
        ⟨some "key", .ok (.obj [("properties", .arr [.obj [("name", .str "H1")]])])⟩ =
        .ok (.arr recs) ∧
      recs.length ≤ 10 ∧
      ∀ r ∈ recs, jKeys r = ["name", "description", "address", "price_per_night",
        "total_price", "rating", "reviews_count", "hotel_class", "url"] :=
  ⟨rfl, rfl, rfl,
    hotels_finder_topN
      ⟨"Paris", "2026-06-22", "2026-06-28", none, some 2, some 0, none, none,
        none, none, some false, some false, some false, some "USD"⟩
      "key" (.obj [("properties", .arr [.obj [("name", .str "H1")]])])
      [.obj [("name", .str "H1")]] rfl rfl rfl⟩

/-! ## C4: flights tool structured error reporting -/

/-- Claim C4: for every parameter set, each of the four enumerated
upstream outcomes — missing `SERPAPI_API_KEY`, HTTP failure, provider
status other than `"Success"`, or an empty flight-result set — makes
`flights_finder` return a structured result object carrying an `error`
or `message` key, never a propagated exception. -/
theorem flights_finder_structured_errors (params : FlightsInput) (env : SerpEnv)
    (h : envKeyMissing env.serpapiKey = true
      ∨ (envKeyMissing env.serpapiKey = false ∧ ∃ e, env.http = .error e)
      ∨ (envKeyMissing env.serpapiKey = false ∧ ∃ data md status,
          env.http = .ok data ∧
          pyDictGet data "search_metadata" (.obj []) = .ok md ∧
          pyDictGet md "status" .null = .ok status ∧
          pyEqStr status "Success" = false)
      ∨ (envKeyMissing env.serpapiKey = false ∧ ∃ data md status bf ofv,
          env.http = .ok data ∧
          pyDictGet data "search_metadata" (.obj []) = .ok md ∧
          pyDictGet md "status" .null = .ok status ∧
          pyEqStr status "Success" = true ∧
          pyDictGet data "best_flights" (.arr []) = .ok bf ∧ pyTruthy bf = false ∧
          pyDictGet data "other_flights" (.arr []) = .ok ofv ∧ pyTruthy ofv = false)) :
    ∃ r, flights_finder params env = .ok r ∧
      (jHasKey r "error" = true ∨ jHasKey r "message" = true) := by
  rcases h with hkm
    | ⟨hkm, e, he⟩
    | ⟨hkm, data, md, status, hhttp, hmd, hst, hne⟩
    | ⟨hkm, data, md, status, bf, ofv, hhttp, hmd, hst, hse, hbf, hbft, hof, hoft⟩
  · refine ⟨.obj [("error",
      .str "SERPAPI_API_KEY is missing. Please set it in your .env file.")], ?_, Or.inl rfl⟩
    unfold flights_finder
    rw [hkm]
    simp
  · refine ⟨.obj [("error",
      .str ("An error occurred while communicating with the API: " ++ e))], ?_, Or.inl rfl⟩
    unfold flights_finder
    rw [hkm, he]
    simp
  · obtain ⟨mfs, rfl⟩ := pyDictGet_ok_obj hst
    refine ⟨.obj [("error", jGetD (.obj mfs) "error" (.str "Unknown error occurred."))],
      ?_, Or.inl rfl⟩
    have hbody : flights_body data =
        .ok (.obj [("error", jGetD (.obj mfs) "error" (.str "Unknown error occurred."))]) := by
      unfold flights_body
      rw [hmd, exceptBindOk, hst, exceptBindOk, hne]
      simp only [if_pos]
      rw [exceptBindOk, pyDictGet_obj, exceptBindOk]
      rfl
    unfold flights_finder
    rw [hkm, hhttp]
    simp only [Bool.false_eq_true, if_false]
    rw [hbody]
  · refine ⟨.obj [("message", .str "No flights found for the given criteria.")],
      ?_, Or.inr rfl⟩
    have hbody : flights_body data =
        .ok (.obj [("message", .str "No flights found for the given criteria.")]) := by
      unfold flights_body
      rw [hmd, exceptBindOk, hst, exceptBindOk, hse]
      simp only [Bool.true_eq_false, if_false]
      rw [hbf, exceptBindOk, hbft]
      simp only [Bool.false_eq_true, if_false]
      rw [hof, exceptBindOk, hoft]
      simp only [if_pos]
      rfl
    unfold flights_finder
    rw [hkm, hhttp]
    simp only [Bool.false_eq_true, if_false]
    rw [hbody]

/-- Witness for C4 at a concrete environment with the credential unset. -/
theorem flights_finder_structured_errors_witness :
    envKeyMissing (SerpEnv.mk none (.ok .null)).serpapiKey = true ∧
    ∃ r, flights_finder
        ⟨none, none, none, none, some 1, some 0, some 0, some 0, some "USD",
          some 1, some "0", none, some "us", some "en"⟩
        ⟨none, .ok .null⟩ = .ok r ∧
      (jHasKey r "error" = true ∨ jHasKey r "message" = true) :=
  ⟨rfl, flights_finder_structured_errors
    ⟨none, none, none, none, some 1, some 0, some 0, some 0, some "USD",
      some 1, some "0", none, some "us", some "en"⟩
    ⟨none, .ok .null⟩ (Or.inl rfl)⟩

/-! ## C10: attractions tool filtering and defaults -/

/-- Claim-side (C10) record for a tagged element: the name defaults to
`"Unnamed"`, the type to `"Unknown"` when the searched category tag is
absent, and the details field is the element's full tags mapping.  The
claim is silent on `lat`/`lon`, which are stated as the code computes
them. -/
def claimAttraction (category : Option String) (el : JValue) : JValue :=
  let tags := jGetD el "tags" .null
  .obj [("name", jGetD tags "name" (.str "Unnamed")),
        ("type", match category with
          | some c => jGetD tags c (.str "Unknown")
          | none => .str "Unknown"),
        ("lat", jGetD el "lat" (jGetD (jGetD el "center" (.obj [])) "lat" .null)),
        ("lon", jGetD el "lon" (jGetD (jGetD el "center" (.obj [])) "lon" .null)),
        ("details", tags)]

/-- Well-formedness of one Overpass element: the element is an object and
its `tags` and `center` values, when present, are objects (otherwise the
source raises on `element["tags"].get` or `element.get("center", {}).get`). -/
def attractionElemOk (el : JValue) : Bool :=
  match el with
  | .obj _ =>
    (match jFind el "tags" with
     | some (.obj _) => true
     | some _ => false
     | none => true) &&
    (match jFind el "center" with
     | some (.obj _) => true
     | some _ => false
     | none => true)
  | _ => false

/-- On a well-formed tagged element the code's record equals the
claim-side record. -/
theorem attractionRecord_eq_claim (category : Option String)
    (fs tfs cfs : List (String × JValue))
    (hf : jFind (.obj fs) "tags" = some (.obj tfs))
    (hcen : jGetD (.obj fs) "center" (.obj []) = .obj cfs) :
    attractionRecord category (.obj fs) = .ok (claimAttraction category (.obj fs)) := by
  have hgi : pyGetItem (.obj fs) (.str "tags") = .ok (.obj tfs) := by
    have hf2 : (fs.find? (fun p => p.1 == "tags")).map (fun p => p.2) =
        some (.obj tfs) := hf
    simp [pyGetItem, hf2]
  have htagsd : jGetD (.obj fs) "tags" .null = .obj tfs := by
    simp [jGetD, hf]
  unfold attractionRecord claimAttraction
  rw [hgi, exceptBindOk]
  cases category with
  | some c =>
    simp only [pyDictGet_obj, exceptBindOk, hcen, htagsd]
    rfl
  | none =>
    simp only [pyDictGet_obj, exceptBindOk, hcen, htagsd, pyNoneKeyGet]
    rfl

/-- The accumulation loop keeps exactly the tagged elements, mapped to
their claim-side records, in order. -/
theorem collectAttractions_spec (category : Option String) (es : List JValue)
    (h : es.all attractionElemOk = true) :
    collectAttractions category es =
      .ok ((es.filter (fun el => jHasKey el "tags")).map (claimAttraction category)) := by
  induction es with
  | nil => rfl
  | cons el rest ih =>
    rw [List.all_cons, Bool.and_eq_true] at h
    obtain ⟨hel, hrest⟩ := h
    cases el
    case obj fs =>
      have hcontains : pyContains (JValue.obj fs) "tags" =
          .ok (jHasKey (JValue.obj fs) "tags") := rfl
      cases hh : jHasKey (JValue.obj fs) "tags" with
      | false =>
        unfold collectAttractions
        rw [hcontains, exceptBindOk, hh]
        simp only [Bool.false_eq_true, if_false]
        rw [ih hrest]
        simp [List.filter_cons, hh]
      | true =>
        obtain ⟨tags, hf⟩ : ∃ t, jFind (JValue.obj fs) "tags" = some t := by
          rw [jHasKey] at hh
          exact Option.isSome_iff_exists.mp hh
        have hok := hel
        unfold attractionElemOk at hok
        rw [Bool.and_eq_true] at hok
        obtain ⟨htago, hceno⟩ := hok
        cases tags
        case obj tfs =>
          obtain ⟨cfs, hcen⟩ : ∃ c, jGetD (JValue.obj fs) "center" (.obj []) = .obj c := by
            cases hc : jFind (JValue.obj fs) "center" with
            | none => exact ⟨[], by simp [jGetD, hc]⟩
            | some cv =>
              rw [hc] at hceno
              cases cv
              case obj cfs => exact ⟨cfs, by simp [jGetD, hc]⟩
              all_goals exact absurd hceno (by simp)
          unfold collectAttractions
          rw [hcontains, exceptBindOk, hh]
          simp only [if_true]
          rw [attractionRecord_eq_claim category fs tfs cfs hf hcen, exceptBindOk,
            ih hrest, exceptBindOk]
          simp [List.filter_cons, hh, pure, Except.pure]
        all_goals (rw [hf] at htago; exact absurd htago (by simp))
    all_goals exact absurd hel (by simp [attractionElemOk])

/-- In-range list indexing succeeds. -/
theorem pyListIdx_ok (xs : List String) (i : Nat) (h : i < xs.length) :
    ∃ s, pyListIdx xs i = .ok s := by
  refine ⟨xs.get ⟨i, h⟩, ?_⟩
  unfold pyListIdx
  rw [List.get?_eq_get h]

/-- The query construction succeeds whenever the location splits into at
least two comma-separated pieces. -/
theorem attractionsQuery_ok (params : AttractionsInput)
    (h : 1 < (pySplit params.location (Char.ofNat 44)).length) :
    ∃ q, attractionsQuery params = .ok q := by
  obtain ⟨s0, h0⟩ := pyListIdx_ok (pySplit params.location (Char.ofNat 44)) 0 (by omega)
  obtain ⟨s1, h1⟩ := pyListIdx_ok (pySplit params.location (Char.ofNat 44)) 1 h
  unfold attractionsQuery
  rw [h0, exceptBindOk, h1, exceptBindOk]
  exact ⟨_, rfl⟩

/-- Claim C10: on a well-formed provider response, the attractions tool
keeps exactly the elements carrying a `tags` mapping; each kept record
takes the default name `"Unnamed"` and type `"Unknown"` when the
corresponding tag is absent and carries the full tags mapping as its
`details`; and when no element carries tags the tool returns a `message`
object instead of an empty list. -/
theorem attractions_finder_filtering (params : AttractionsInput) (data : JValue)
    (es : List JValue)
    (hloc : 1 < (pySplit params.location (Char.ofNat 44)).length)
    (helems : pyDictGet data "elements" (.arr []) = .ok (.arr es))
    (hwf : es.all attractionElemOk = true) :
    attractions_finder params (.ok data) =
      .ok (if (es.filter (fun el => jHasKey el "tags")).isEmpty then
        .obj [("message", .str "No attractions found for the given location and criteria.")]
      else
        .arr ((es.filter (fun el => jHasKey el "tags")).map
          (claimAttraction params.category))) := by
  obtain ⟨q, hq⟩ := attractionsQuery_ok params hloc
  unfold attractions_finder
  rw [hq, exceptBindOk]
  show attractions_body params.category data = _
  unfold attractions_body
  rw [helems, exceptBindOk]
  show (do
    let results ← collectAttractions params.category es
    if results.isEmpty then
      return JValue.obj [("message",
        .str "No attractions found for the given location and criteria.")]
    else
      return JValue.arr results : Except PyExn JValue) = _
  rw [collectAttractions_spec params.category es hwf, exceptBindOk]
  cases hemp : (es.filter (fun el => jHasKey el "tags")).isEmpty with
  | true =>
    rw [List.isEmpty_iff] at hemp
    simp [hemp, pure, Except.pure]
  | false =>
    have hmape : ((es.filter (fun el => jHasKey el "tags")).map
        (claimAttraction params.category)).isEmpty = false := by
      rw [List.isEmpty_eq_false] at hemp ⊢
      simpa using hemp
    rw [hmape]
    simp [hemp, pure, Except.pure]

/-- Witness for C10 at a concrete response with one tagged and one
untagged element. -/
theorem attractions_finder_filtering_witness :
    1 < (pySplit "48.8566,2.3522" (Char.ofNat 44)).length ∧
    pyDictGet (.obj [("elements", .arr
        [.obj [("tags", .obj [("name", .str "Eiffel Tower")]),
               ("lat", .num 48), ("lon", .num 2)],
         .obj [("type", .str "node")]])]) "elements" (.arr []) =
      .ok (.arr
        [.obj [("tags", .obj [("name", .str "Eiffel Tower")]),
               ("lat", .num 48), ("lon", .num 2)],
         .obj [("type", .str "node")]]) ∧
    ([(.obj [("tags", .obj [("name", .str "Eiffel Tower")]),
             ("lat", .num 48), ("lon", .num 2)] : JValue),
      .obj [("type", .str "node")]]).all attractionElemOk = true ∧
    attractions_finder ⟨"48.8566,2.3522", 1000, some "tourism"⟩
        (.ok (.obj [("elements", .arr
          [.obj [("tags", .obj [("name", .str "Eiffel Tower")]),
                 ("lat", .num 48), ("lon", .num 2)],
           .obj [("type", .str "node")]])])) =
      .ok (if (([(.obj [("tags", .obj [("name", .str "Eiffel Tower")]),
                       ("lat", .num 48), ("lon", .num 2)] : JValue),
                .obj [("type", .str "node")]]).filter
              (fun el => jHasKey el "tags")).isEmpty then
        .obj [("message", .str "No attractions found for the given location and criteria.")]
      else
        .arr ((([(.obj [("tags", .obj [("name", .str "Eiffel Tower")]),
                        ("lat", .num 48), ("lon", .num 2)] : JValue),
                 .obj [("type", .str "node")]]).filter
               (fun el => jHasKey el "tags")).map
          (claimAttraction (some "tourism")))) :=
  ⟨by decide, rfl, rfl,
    attractions_finder_filtering ⟨"48.8566,2.3522", 1000, some "tourism"⟩
      (.obj [("elements", .arr
        [.obj [("tags", .obj [("name", .str "Eiffel Tower")]),
               ("lat", .num 48), ("lon", .num 2)],
         .obj [("type", .str "node")]])])
      [.obj [("tags", .obj [("name", .str "Eiffel Tower")]),
             ("lat", .num 48), ("lon", .num 2)],
       .obj [("type", .str "node")]]
      (by decide) rfl rfl⟩

/-- Witness for C1 at a concrete latest message carrying one tool call. -/
theorem exists_action_routing_witness :
    (exists_action ([] ++ [(⟨.assistant, "x", [⟨"id1", "flights_finder", .null⟩],
        none, none⟩ : Message)]) = some "more_tools" ↔
      ([⟨"id1", "flights_finder", .null⟩] : List ToolCall) ≠ []) ∧
    (exists_action ([] ++ [(⟨.assistant, "x", [⟨"id1", "flights_finder", .null⟩],
        none, none⟩ : Message)]) = some "email_sender" ↔
      ([⟨"id1", "flights_finder", .null⟩] : List ToolCall) = []) :=
  exists_action_routing [] ⟨.assistant, "x", [⟨"id1", "flights_finder", .null⟩], none, none⟩

/-- Witness for the amended C2 at a concrete two-request dispatch (one
registered invocation that returns a value, one unregistered name). -/
theorem invoke_tools_pairing_witness :
    (([⟨"id1", "flights_finder",
        .obj [("params", .obj [("departure_airport", .str "JFK"),
          ("arrival_airport", .str "CDG")])]⟩,
       ⟨"id2", "fake_tool2", .null⟩] : List ToolCall).all
      (fun t => exceptIsOk (toolResultContent
        (fun _ _ => .ok (.str "5 flights found")) t)) = true) ∧
    ∃ rs, invoke_tools (fun _ _ => .ok (.str "5 flights found"))
        ([] ++ [(⟨.assistant, "x",
          [⟨"id1", "flights_finder",
            .obj [("params", .obj [("departure_airport", .str "JFK"),
              ("arrival_airport", .str "CDG")])]⟩,
           ⟨"id2", "fake_tool2", .null⟩],
          none, none⟩ : Message)]) = .ok rs ∧
      rs.length = 2 ∧
      ∀ i (h1 : i < rs.length) (h2 : i < 2),
        (rs.get ⟨i, h1⟩).role = Role.tool ∧
        (rs.get ⟨i, h1⟩).tool_call_id =
          some (([⟨"id1", "flights_finder",
                    .obj [("params", .obj [("departure_airport", .str "JFK"),
                      ("arrival_airport", .str "CDG")])]⟩,
                  ⟨"id2", "fake_tool2", .null⟩] : List ToolCall).get ⟨i, h2⟩).id ∧
        (rs.get ⟨i, h1⟩).name =
          some (([⟨"id1", "flights_finder",
                    .obj [("params", .obj [("departure_airport", .str "JFK"),
                      ("arrival_airport", .str "CDG")])]⟩,
                  ⟨"id2", "fake_tool2", .null⟩] : List ToolCall).get ⟨i, h2⟩).name :=
  ⟨rfl, invoke_tools_pairing (fun _ _ => .ok (.str "5 flights found")) []
    ⟨.assistant, "x",
      [⟨"id1", "flights_finder",
        .obj [("params", .obj [("departure_airport", .str "JFK"),
          ("arrival_airport", .str "CDG")])]⟩,
       ⟨"id2", "fake_tool2", .null⟩],
      none, none⟩ rfl⟩
